import Mathlib

/-!
Verification development for the Big-Data-Analytics-for-Business repository.

The repository consists of two Jupyter notebooks (a Spark-SQL tutorial and a
joins tutorial) and a gcloud shell cheat sheet.  The notebooks are data: each
code cell records an execution count, its Python source lines, and the text
lines of its transcribed outputs.  This file embeds that data verbatim
(sources and outputs are copied character for character from the .ipynb JSON,
minus the trailing newline each JSON line carries), embeds the literal
person/graduateProgram datasets of the joins notebook together with the
mathematical definitions of the join operators the notebook demonstrates, and
embeds the cheat-sheet commands.  The theorems at the end settle the claims
about this material.
-/

namespace BigDataNotebooks

/-! Text primitives.  All text predicates work on `List Char` by structural
recursion so that every statement below is decidable by kernel evaluation. -/

/-- True when the first list is a prefix of the second, comparing characters. -/
def beginsWith : List Char → List Char → Bool
  | [], _ => true
  | _ :: _, [] => false
  | c :: cs, d :: ds => c == d && beginsWith cs ds

/-- True when `needle` occurs as a contiguous segment of the second list. -/
def containsSeg (needle : List Char) : List Char → Bool
  | [] => beginsWith needle []
  | d :: ds => beginsWith needle (d :: ds) || containsSeg needle ds

/-- Number of positions at which `needle` occurs in the list. -/
def countSeg (needle : List Char) : List Char → Nat
  | [] => 0
  | d :: ds => (if beginsWith needle (d :: ds) then 1 else 0) + countSeg needle ds

/-- Substring test on strings. -/
def hasSubstr (needle s : String) : Bool := containsSeg needle.data s.data

/-- Occurrence count on strings. -/
def countOccur (needle s : String) : Nat := countSeg needle.data s.data

/-- String prefix test. -/
def startsWithStr (pre s : String) : Bool := beginsWith pre.data s.data

/-! The notebook model.  A notebook's code cells, in document order.  Each
cell keeps the `execution_count` recorded in the .ipynb file, its source
lines, and the text lines of its outputs (`[]` when the JSON `outputs` array
is empty).  Markdown cells carry no execution counts and no outputs, and no
claim below predicates on their prose, so only the code cells are embedded. -/

structure CodeCell where
  executionCount : Nat
  source : List String
  outputs : List String
deriving DecidableEq

/-- Some line of the cell's source contains `needle`. -/
def srcHas (needle : String) (c : CodeCell) : Bool := c.source.any (hasSubstr needle)

/-- Some line of the cell's output contains `needle`. -/
def outHas (needle : String) (c : CodeCell) : Bool := c.outputs.any (hasSubstr needle)

/-- Total number of occurrences of `needle` across the cell's source lines. -/
def countInSrc (needle : String) (c : CodeCell) : Nat :=
  (c.source.map (countOccur needle)).sum

/-! The code cells of docs/Supplementary-Materials/01-Spark-SQL.ipynb. -/

def sparkSqlCodeCells : List CodeCell := [
  ⟨1,
   ["spark.sql(\"SELECT 1 + 1\").show()"],
   ["+-------+",
    "|(1 + 1)|",
    "+-------+",
    "|      2|",
    "+-------+",
    ""]⟩,
  ⟨2,
   ["bucket = spark._jsc.hadoopConfiguration().get(\"fs.gs.system.bucket\")",
    "data = \"gs://\" + bucket + \"/notebooks/data/\"",
    "",
    "spark.read.json(data + \"flight-data/json/2015-summary.json\")\\",
    "  .createOrReplaceTempView(\"flights_view\") # DF => SQL"],
   []⟩,
  ⟨3,
   ["spark.sql(\"\"\"",
    "SELECT DEST_COUNTRY_NAME, sum(count)",
    "FROM flights_view GROUP BY DEST_COUNTRY_NAME",
    "\"\"\")\\",
    "  .where(\"DEST_COUNTRY_NAME like 'S%'\").where(\"`sum(count)` > 10\")\\",
    "  .count() # SQL => DF"],
   ["12"]⟩,
  ⟨4,
   ["spark.sql('''",
    "CREATE TABLE IF NOT EXISTS flights_from_select USING parquet AS SELECT * FROM flights_view",
    "''')"],
   ["DataFrame[]"]⟩,
  ⟨5,
   ["spark.sql('SELECT * FROM flights_from_select').show(5)"],
   ["+-----------------+-------------------+-----+",
    "|DEST_COUNTRY_NAME|ORIGIN_COUNTRY_NAME|count|",
    "+-----------------+-------------------+-----+",
    "|    United States|            Romania|   15|",
    "|    United States|            Croatia|    1|",
    "|    United States|            Ireland|  344|",
    "|            Egypt|      United States|   15|",
    "|    United States|              India|   62|",
    "+-----------------+-------------------+-----+",
    "only showing top 5 rows",
    ""]⟩,
  ⟨6,
   ["spark.sql('''",
    "DESCRIBE TABLE flights_from_select",
    "''').show()"],
   ["+-------------------+---------+-------+",
    "|           col_name|data_type|comment|",
    "+-------------------+---------+-------+",
    "|  DEST_COUNTRY_NAME|   string|   null|",
    "|ORIGIN_COUNTRY_NAME|   string|   null|",
    "|              count|   bigint|   null|",
    "+-------------------+---------+-------+",
    ""]⟩,
  ⟨7,
   ["Cat = spark.catalog"],
   []⟩,
  ⟨8,
   ["Cat.listTables()"],
   ["[Table(name='flights_from_select', database='default', description=None, tableType='MANAGED', isTemporary=False),",
    " Table(name='flights_view', database=None, description=None, tableType='TEMPORARY', isTemporary=True)]"]⟩,
  ⟨9,
   ["spark.sql('SHOW TABLES').show(5, False)"],
   ["+--------+-------------------+-----------+",
    "|database|tableName          |isTemporary|",
    "+--------+-------------------+-----------+",
    "|default |flights_from_select|false      |",
    "|        |flights_view       |true       |",
    "+--------+-------------------+-----------+",
    ""]⟩,
  ⟨10,
   ["Cat.listDatabases()"],
   ["[Database(name='default', description='Default Hive database', locationUri='hdfs://bigcluster-m/user/hive/warehouse')]"]⟩,
  ⟨11,
   ["spark.sql('SHOW DATABASES').show()"],
   ["+------------+",
    "|databaseName|",
    "+------------+",
    "|     default|",
    "+------------+",
    ""]⟩,
  ⟨12,
   ["Cat.listColumns('flights_from_select')"],
   ["[Column(name='DEST_COUNTRY_NAME', description=None, dataType='string', nullable=True, isPartition=False, isBucket=False),",
    " Column(name='ORIGIN_COUNTRY_NAME', description=None, dataType='string', nullable=True, isPartition=False, isBucket=False),",
    " Column(name='count', description=None, dataType='bigint', nullable=True, isPartition=False, isBucket=False)]"]⟩,
  ⟨13,
   ["Cat.listTables()"],
   ["[Table(name='flights_from_select', database='default', description=None, tableType='MANAGED', isTemporary=False),",
    " Table(name='flights_view', database=None, description=None, tableType='TEMPORARY', isTemporary=True)]"]⟩,
  ⟨14,
   ["spark.sql('''",
    "CACHE TABLE flights_view",
    "''')"],
   ["DataFrame[]"]⟩,
  ⟨15,
   ["spark.sql('''",
    "UNCACHE TABLE flights_view",
    "''')"],
   ["DataFrame[]"]⟩,
  ⟨16,
   ["spark.sql('''",
    "EXPLAIN SELECT * FROM just_usa_view",
    "''').show(1, False)"],
   ["+-----------------------------------------------------------------------------------------------------------------+",
    "|plan                                                                                                             |",
    "+-----------------------------------------------------------------------------------------------------------------+",
    "|== Physical Plan ==",
    "org.apache.spark.sql.AnalysisException: Table or view not found: just_usa_view; line 2 pos 22|",
    "+-----------------------------------------------------------------------------------------------------------------+",
    ""]⟩,
  ⟨17,
   ["spark.sql('''",
    "CREATE VIEW just_usa_view AS",
    "  SELECT * FROM flights_from_select WHERE dest_country_name = 'United States'",
    "''')"],
   ["DataFrame[]"]⟩,
  ⟨18,
   ["spark.sql('''",
    "DROP VIEW IF EXISTS just_usa_view",
    "''')"],
   ["DataFrame[]"]⟩,
  ⟨19,
   ["spark.sql('DROP TABLE flights_from_select')"],
   ["DataFrame[]"]⟩,
  ⟨20,
   ["spark.sql('DROP TABLE IF EXISTS flights_from_select')"],
   ["DataFrame[]"]⟩]

/-! The transcribed physical plans of the joins notebook (outputs of its last
two cells), kept as named definitions so the plan-shape claims can refer to
them directly. -/

def sortMergePlan : List String :=
  ["== Physical Plan ==",
   "*(5) SortMergeJoin [graduate_program#10L], [id#24L], Inner",
   ":- *(2) Sort [graduate_program#10L ASC NULLS FIRST], false, 0",
   ":  +- Exchange hashpartitioning(graduate_program#10L, 200)",
   ":     +- *(1) Project [_1#0L AS id#8L, _2#1 AS name#9, _3#2L AS graduate_program#10L, _4#3 AS spark_status#11]",
   ":        +- *(1) Filter isnotnull(_3#2L)",
   ":           +- Scan ExistingRDD[_1#0L,_2#1,_3#2L,_4#3]",
   "+- *(4) Sort [id#24L ASC NULLS FIRST], false, 0",
   "   +- Exchange hashpartitioning(id#24L, 200)",
   "      +- *(3) Project [_1#16L AS id#24L, _2#17 AS degree#25, _3#18 AS department#26, _4#19 AS school#27]",
   "         +- *(3) Filter isnotnull(_1#16L)",
   "            +- Scan ExistingRDD[_1#16L,_2#17,_3#18,_4#19]"]

def broadcastPlan : List String :=
  ["== Physical Plan ==",
   "*(2) BroadcastHashJoin [graduate_program#10L], [id#24L], Inner, BuildRight",
   ":- *(2) Project [_1#0L AS id#8L, _2#1 AS name#9, _3#2L AS graduate_program#10L, _4#3 AS spark_status#11]",
   ":  +- *(2) Filter isnotnull(_3#2L)",
   ":     +- Scan ExistingRDD[_1#0L,_2#1,_3#2L,_4#3]",
   "+- BroadcastExchange HashedRelationBroadcastMode(List(input[0, bigint, true]))",
   "   +- *(1) Project [_1#16L AS id#24L, _2#17 AS degree#25, _3#18 AS department#26, _4#19 AS school#27]",
   "      +- *(1) Filter isnotnull(_1#16L)",
   "         +- Scan ExistingRDD[_1#16L,_2#17,_3#18,_4#19]"]

/-! The code cells of the joins notebook (src/unnamed/part_000). -/

def joinsCodeCells : List CodeCell := [
  ⟨1,
   ["person = spark.createDataFrame([",
    "    (0, \"Bill Chambers\", 0, [100]),",
    "    (1, \"Matei Zaharia\", 1, [500, 250, 100]),",
    "    (2, \"Michael Armbrust\", 1, [250, 100])])\\",
    "  .toDF(\"id\", \"name\", \"graduate_program\", \"spark_status\")",
    "",
    "graduateProgram = spark.createDataFrame([",
    "    (0, \"Masters\", \"School of Information\", \"UC Berkeley\"),",
    "    (2, \"Masters\", \"EECS\", \"UC Berkeley\"),",
    "    (1, \"Ph.D.\", \"EECS\", \"UC Berkeley\")])\\",
    "  .toDF(\"id\", \"degree\", \"department\", \"school\")",
    "",
    "person.show()",
    "graduateProgram.show()"],
   ["+---+----------------+----------------+---------------+",
    "| id|            name|graduate_program|   spark_status|",
    "+---+----------------+----------------+---------------+",
    "|  0|   Bill Chambers|               0|          [100]|",
    "|  1|   Matei Zaharia|               1|[500, 250, 100]|",
    "|  2|Michael Armbrust|               1|     [250, 100]|",
    "+---+----------------+----------------+---------------+",
    "",
    "+---+-------+--------------------+-----------+",
    "| id| degree|          department|     school|",
    "+---+-------+--------------------+-----------+",
    "|  0|Masters|School of Informa...|UC Berkeley|",
    "|  2|Masters|                EECS|UC Berkeley|",
    "|  1|  Ph.D.|                EECS|UC Berkeley|",
    "+---+-------+--------------------+-----------+",
    ""]⟩,
  ⟨2,
   ["person.createOrReplaceTempView(\"person\")",
    "graduateProgram.createOrReplaceTempView(\"graduateProgram\")"],
   []⟩,
  ⟨3,
   ["joinExpression = person[\"graduate_program\"] == graduateProgram['id']"],
   []⟩,
  ⟨4,
   ["person.join(graduateProgram, joinExpression).show()"],
   ["+---+----------------+----------------+---------------+---+-------+--------------------+-----------+",
    "| id|            name|graduate_program|   spark_status| id| degree|          department|     school|",
    "+---+----------------+----------------+---------------+---+-------+--------------------+-----------+",
    "|  0|   Bill Chambers|               0|          [100]|  0|Masters|School of Informa...|UC Berkeley|",
    "|  1|   Matei Zaharia|               1|[500, 250, 100]|  1|  Ph.D.|                EECS|UC Berkeley|",
    "|  2|Michael Armbrust|               1|     [250, 100]|  1|  Ph.D.|                EECS|UC Berkeley|",
    "+---+----------------+----------------+---------------+---+-------+--------------------+-----------+",
    ""]⟩,
  ⟨5,
   ["person.join(graduateProgram, ",
    "            on = person[\"graduate_program\"] == graduateProgram['id'],",
    "            how = \"inner\").show()"],
   ["+---+----------------+----------------+---------------+---+-------+--------------------+-----------+",
    "| id|            name|graduate_program|   spark_status| id| degree|          department|     school|",
    "+---+----------------+----------------+---------------+---+-------+--------------------+-----------+",
    "|  0|   Bill Chambers|               0|          [100]|  0|Masters|School of Informa...|UC Berkeley|",
    "|  1|   Matei Zaharia|               1|[500, 250, 100]|  1|  Ph.D.|                EECS|UC Berkeley|",
    "|  2|Michael Armbrust|               1|     [250, 100]|  1|  Ph.D.|                EECS|UC Berkeley|",
    "+---+----------------+----------------+---------------+---+-------+--------------------+-----------+",
    ""]⟩,
  ⟨6,
   ["person.join(graduateProgram, ",
    "            on = person[\"graduate_program\"] == graduateProgram['id'],",
    "            how = \"outer\").show()"],
   ["+----+----------------+----------------+---------------+---+-------+--------------------+-----------+",
    "|  id|            name|graduate_program|   spark_status| id| degree|          department|     school|",
    "+----+----------------+----------------+---------------+---+-------+--------------------+-----------+",
    "|   0|   Bill Chambers|               0|          [100]|  0|Masters|School of Informa...|UC Berkeley|",
    "|   1|   Matei Zaharia|               1|[500, 250, 100]|  1|  Ph.D.|                EECS|UC Berkeley|",
    "|   2|Michael Armbrust|               1|     [250, 100]|  1|  Ph.D.|                EECS|UC Berkeley|",
    "|null|            null|            null|           null|  2|Masters|                EECS|UC Berkeley|",
    "+----+----------------+----------------+---------------+---+-------+--------------------+-----------+",
    ""]⟩,
  ⟨7,
   ["graduateProgram.join(person, ",
    "                     on = person[\"graduate_program\"] == graduateProgram['id'],",
    "                     how = \"left_outer\").show()"],
   ["+---+-------+--------------------+-----------+----+----------------+----------------+---------------+",
    "| id| degree|          department|     school|  id|            name|graduate_program|   spark_status|",
    "+---+-------+--------------------+-----------+----+----------------+----------------+---------------+",
    "|  0|Masters|School of Informa...|UC Berkeley|   0|   Bill Chambers|               0|          [100]|",
    "|  1|  Ph.D.|                EECS|UC Berkeley|   1|   Matei Zaharia|               1|[500, 250, 100]|",
    "|  1|  Ph.D.|                EECS|UC Berkeley|   2|Michael Armbrust|               1|     [250, 100]|",
    "|  2|Masters|                EECS|UC Berkeley|null|            null|            null|           null|",
    "+---+-------+--------------------+-----------+----+----------------+----------------+---------------+",
    ""]⟩,
  ⟨8,
   ["person.join(graduateProgram, ",
    "            on = person[\"graduate_program\"] == graduateProgram['id'],",
    "            how = \"right_outer\").show()"],
   ["+----+----------------+----------------+---------------+---+-------+--------------------+-----------+",
    "|  id|            name|graduate_program|   spark_status| id| degree|          department|     school|",
    "+----+----------------+----------------+---------------+---+-------+--------------------+-----------+",
    "|   0|   Bill Chambers|               0|          [100]|  0|Masters|School of Informa...|UC Berkeley|",
    "|   1|   Matei Zaharia|               1|[500, 250, 100]|  1|  Ph.D.|                EECS|UC Berkeley|",
    "|   2|Michael Armbrust|               1|     [250, 100]|  1|  Ph.D.|                EECS|UC Berkeley|",
    "|null|            null|            null|           null|  2|Masters|                EECS|UC Berkeley|",
    "+----+----------------+----------------+---------------+---+-------+--------------------+-----------+",
    ""]⟩,
  ⟨9,
   ["graduateProgram.join(person, ",
    "                     on = person[\"graduate_program\"] == graduateProgram['id'],",
    "                     how = \"left_semi\").show()"],
   ["+---+-------+--------------------+-----------+",
    "| id| degree|          department|     school|",
    "+---+-------+--------------------+-----------+",
    "|  0|Masters|School of Informa...|UC Berkeley|",
    "|  1|  Ph.D.|                EECS|UC Berkeley|",
    "+---+-------+--------------------+-----------+",
    ""]⟩,
  ⟨10,
   ["graduateProgram.join(person, ",
    "                     on = person[\"graduate_program\"] == graduateProgram['id'],",
    "                     how = \"left_anti\").show()"],
   ["+---+-------+----------+-----------+",
    "| id| degree|department|     school|",
    "+---+-------+----------+-----------+",
    "|  2|Masters|      EECS|UC Berkeley|",
    "+---+-------+----------+-----------+",
    ""]⟩,
  ⟨11,
   ["person.crossJoin(graduateProgram).show()"],
   ["+---+----------------+----------------+---------------+---+-------+--------------------+-----------+",
    "| id|            name|graduate_program|   spark_status| id| degree|          department|     school|",
    "+---+----------------+----------------+---------------+---+-------+--------------------+-----------+",
    "|  0|   Bill Chambers|               0|          [100]|  0|Masters|School of Informa...|UC Berkeley|",
    "|  0|   Bill Chambers|               0|          [100]|  2|Masters|                EECS|UC Berkeley|",
    "|  0|   Bill Chambers|               0|          [100]|  1|  Ph.D.|                EECS|UC Berkeley|",
    "|  1|   Matei Zaharia|               1|[500, 250, 100]|  0|Masters|School of Informa...|UC Berkeley|",
    "|  2|Michael Armbrust|               1|     [250, 100]|  0|Masters|School of Informa...|UC Berkeley|",
    "|  1|   Matei Zaharia|               1|[500, 250, 100]|  2|Masters|                EECS|UC Berkeley|",
    "|  1|   Matei Zaharia|               1|[500, 250, 100]|  1|  Ph.D.|                EECS|UC Berkeley|",
    "|  2|Michael Armbrust|               1|     [250, 100]|  2|Masters|                EECS|UC Berkeley|",
    "|  2|Michael Armbrust|               1|     [250, 100]|  1|  Ph.D.|                EECS|UC Berkeley|",
    "+---+----------------+----------------+---------------+---+-------+--------------------+-----------+",
    ""]⟩,
  ⟨12,
   ["gradProgramDupe = graduateProgram.withColumnRenamed(\"id\", \"graduate_program\")",
    "",
    "df = person.join(gradProgramDupe,",
    "                 on = person[\"graduate_program\"] == gradProgramDupe[\"graduate_program\"],",
    "                 how = \"inner\")",
    "df.show()"],
   ["+---+----------------+----------------+---------------+----------------+-------+--------------------+-----------+",
    "| id|            name|graduate_program|   spark_status|graduate_program| degree|          department|     school|",
    "+---+----------------+----------------+---------------+----------------+-------+--------------------+-----------+",
    "|  0|   Bill Chambers|               0|          [100]|               0|Masters|School of Informa...|UC Berkeley|",
    "|  1|   Matei Zaharia|               1|[500, 250, 100]|               1|  Ph.D.|                EECS|UC Berkeley|",
    "|  2|Michael Armbrust|               1|     [250, 100]|               1|  Ph.D.|                EECS|UC Berkeley|",
    "+---+----------------+----------------+---------------+----------------+-------+--------------------+-----------+",
    ""]⟩,
  ⟨13,
   ["person.join(gradProgramDupe,\"graduate_program\").show()"],
   ["+----------------+---+----------------+---------------+-------+--------------------+-----------+",
    "|graduate_program| id|            name|   spark_status| degree|          department|     school|",
    "+----------------+---+----------------+---------------+-------+--------------------+-----------+",
    "|               0|  0|   Bill Chambers|          [100]|Masters|School of Informa...|UC Berkeley|",
    "|               1|  1|   Matei Zaharia|[500, 250, 100]|  Ph.D.|                EECS|UC Berkeley|",
    "|               1|  2|Michael Armbrust|     [250, 100]|  Ph.D.|                EECS|UC Berkeley|",
    "+----------------+---+----------------+---------------+-------+--------------------+-----------+",
    ""]⟩,
  ⟨14,
   ["person.join(gradProgramDupe, ",
    "           person[\"graduate_program\"] == gradProgramDupe[\"graduate_program\"])\\",
    "  .drop(person[\"graduate_program\"]).show()"],
   ["+---+----------------+---------------+----------------+-------+--------------------+-----------+",
    "| id|            name|   spark_status|graduate_program| degree|          department|     school|",
    "+---+----------------+---------------+----------------+-------+--------------------+-----------+",
    "|  0|   Bill Chambers|          [100]|               0|Masters|School of Informa...|UC Berkeley|",
    "|  1|   Matei Zaharia|[500, 250, 100]|               1|  Ph.D.|                EECS|UC Berkeley|",
    "|  2|Michael Armbrust|     [250, 100]|               1|  Ph.D.|                EECS|UC Berkeley|",
    "+---+----------------+---------------+----------------+-------+--------------------+-----------+",
    ""]⟩,
  ⟨15,
   ["gradProgram3 = graduateProgram.withColumnRenamed(\"id\", \"grad_id\")",
    "",
    "person.join(gradProgram3, ",
    "           person[\"graduate_program\"] == gradProgram3[\"grad_id\"]).show()"],
   ["+---+----------------+----------------+---------------+-------+-------+--------------------+-----------+",
    "| id|            name|graduate_program|   spark_status|grad_id| degree|          department|     school|",
    "+---+----------------+----------------+---------------+-------+-------+--------------------+-----------+",
    "|  0|   Bill Chambers|               0|          [100]|      0|Masters|School of Informa...|UC Berkeley|",
    "|  1|   Matei Zaharia|               1|[500, 250, 100]|      1|  Ph.D.|                EECS|UC Berkeley|",
    "|  2|Michael Armbrust|               1|     [250, 100]|      1|  Ph.D.|                EECS|UC Berkeley|",
    "+---+----------------+----------------+---------------+-------+-------+--------------------+-----------+",
    ""]⟩,
  ⟨16,
   ["person.join(graduateProgram, ",
    "           person[\"graduate_program\"] == graduateProgram[\"id\"]).explain()"],
   sortMergePlan⟩,
  ⟨17,
   ["from pyspark.sql.functions import broadcast",
    "",
    "person.join(broadcast(graduateProgram), ",
    "           person[\"graduate_program\"] == graduateProgram[\"id\"]).explain()"],
   broadcastPlan⟩]

/-- Every code cell of the repository's two notebooks, in document order. -/
def allCodeCells : List CodeCell := sparkSqlCodeCells ++ joinsCodeCells

/-! The gcloud shell cheat sheet.  Each entry is a banner title followed by
its command text, embedded line by line exactly as in the file (the banner
rows of asterisks are decoration and carry no content). -/

structure CheatEntry where
  title : String
  lines : List String
deriving DecidableEq

def createClusterMultiLine : List String :=
  ["gcloud beta dataproc clusters create mycluster \\",
   "  --project <PROJECT-ID> \\",
   "  --bucket <BUCKET-NAME> \\",
   "  --optional-components=ANACONDA,JUPYTER \\",
   "  --image-version=1.3 \\",
   "  --enable-component-gateway \\",
   "  --region us-east1 \\",
   "  --zone us-east1-b \\",
   "  --single-node \\",
   "  --master-machine-type n1-highmem-2 \\",
   "  --master-boot-disk-size 50"]

def createClusterOneLiner : String :=
  "gcloud beta dataproc clusters create mycluster --project <PROJECT-ID> --bucket <BUCKET-NAME> --optional-components=ANACONDA,JUPYTER --image-version=1.4 --enable-component-gateway --region us-east1 --zone us-east1-b --single-node --master-machine-type n1-highmem-2 --master-boot-disk-size 50"

def cheatSheet : List CheatEntry :=
  [⟨"CREATE SINGLE-NODE CLUSTER", createClusterMultiLine⟩,
   ⟨"CREATE SINGLE-NODE CLUSTER ONE-LINER", [createClusterOneLiner]⟩,
   ⟨"SSH Tunnel",
    ["gcloud compute ssh mycluster-m --zone us-east1-b -- -L 8080:localhost:8123",
     "# OR: Select the cluster and under web interfaces select Jupyter or Jupyter Lab."]⟩,
   ⟨"JUPYTER NOTEBOOK", ["localhost:8080"]⟩,
   ⟨"TERMINATE CLUSTER", ["gcloud dataproc clusters delete mycluster --region us-east1"]⟩]

/-- An entry whose command is a gcloud invocation (its first line starts with
gcloud; later lines are flag continuations or a comment). -/
def entryIsGcloud (e : CheatEntry) : Bool := startsWithStr "gcloud" (e.lines.headD "")

/-- The one entry that is not a command: the localhost address of the
notebook server. -/
def entryIsAddress (e : CheatEntry) : Bool := e.lines == ["localhost:8080"]

/-! Shell-word parsing for the two cluster-creation commands: split on
spaces, drop empty words and the backslash line continuations, then read the
words as flag/value pairs (a word with an equals sign carries its value
inline; otherwise the value is the following non-flag word, if any). -/

def splitSpacesAux (cur : List Char) : List Char → List (List Char)
  | [] => [cur.reverse]
  | c :: cs => if c == ' ' then cur.reverse :: splitSpacesAux [] cs
               else splitSpacesAux (c :: cur) cs

/-- The space-separated words of one line, without empty words and without
the backslash continuation marker. -/
def spaceTokens (s : String) : List (List Char) :=
  (splitSpacesAux [] s.data).filter (fun w => !w.isEmpty && w != ['\\'])

/-- The words of a multi-line command. -/
def lineTokens (lines : List String) : List (List Char) := lines.flatMap spaceTokens

/-- Splits a word at its first equals sign: (before, after); a word with no
equals sign is returned whole with an empty value. -/
def breakEq : List Char → List Char × List Char
  | [] => ([], [])
  | c :: cs =>
      if c == '=' then ([], cs)
      else
        let r := breakEq cs
        (c :: r.1, r.2)

def isFlag (t : List Char) : Bool := beginsWith "--".data t

/-- The flag/value pairs of a word list: a flag written as flag=value keeps
its inline value; a flag followed by a non-flag word takes that word as its
value; a bare flag has the empty value.  Non-flag words (the command head)
carry no pair. -/
def flagPairs : List (List Char) → List (List Char × List Char)
  | [] => []
  | [t] => if isFlag t then [breakEq (t.drop 2)] else []
  | t :: v :: rest =>
      if isFlag t then
        if t.contains '=' then breakEq (t.drop 2) :: flagPairs (v :: rest)
        else if isFlag v then (t.drop 2, []) :: flagPairs (v :: rest)
        else (t.drop 2, v) :: flagPairs rest
      else flagPairs (v :: rest)

/-- The command head: the words before the first flag. -/
def commandHead (ts : List (List Char)) : List (List Char) :=
  ts.takeWhile (fun t => !isFlag t)

def multiLineFlagPairs : List (List Char × List Char) :=
  flagPairs (lineTokens createClusterMultiLine)

def oneLinerFlagPairs : List (List Char × List Char) :=
  flagPairs (spaceTokens createClusterOneLiner)

/-! The person and graduateProgram datasets of the joins notebook, as the
createDataFrame cell defines them (rows are Python tuples of ints, strings
and an int list), and the join operators the notebook demonstrates, written
from their mathematical definitions over lists of rows. -/

structure Person where
  id : Int
  name : String
  graduate_program : Int
  spark_status : List Int
deriving DecidableEq

structure GradProgram where
  id : Int
  degree : String
  department : String
  school : String
deriving DecidableEq

def bill : Person := ⟨0, "Bill Chambers", 0, [100]⟩
def matei : Person := ⟨1, "Matei Zaharia", 1, [500, 250, 100]⟩
def michael : Person := ⟨2, "Michael Armbrust", 1, [250, 100]⟩

def masters0 : GradProgram := ⟨0, "Masters", "School of Information", "UC Berkeley"⟩
def masters2 : GradProgram := ⟨2, "Masters", "EECS", "UC Berkeley"⟩
def phd1 : GradProgram := ⟨1, "Ph.D.", "EECS", "UC Berkeley"⟩

def person : List Person := [bill, matei, michael]
def graduateProgram : List GradProgram := [masters0, masters2, phd1]

/-- The notebook's join expression: person.graduate_program = graduateProgram.id. -/
def keyEq (p : Person) (g : GradProgram) : Bool := p.graduate_program == g.id

/-- Inner join: every pair of rows whose keys match. -/
def innerJoin {α β : Type} (L : List α) (R : List β) (p : α → β → Bool) :
    List (α × β) :=
  L.flatMap fun a => (R.filter (p a)).map fun b => (a, b)

/-- Full outer join: the matching pairs, plus every unmatched left row padded
with null on the right, plus every unmatched right row padded with null on
the left. -/
def fullOuterJoin {α β : Type} (L : List α) (R : List β) (p : α → β → Bool) :
    List (Option α × Option β) :=
  ((innerJoin L R p).map fun ab => (some ab.1, some ab.2))
    ++ ((L.filter fun a => !R.any (p a)).map fun a => (some a, none))
    ++ ((R.filter fun b => !L.any (fun a => p a b)).map fun b => (none, some b))

/-- Left outer join: every left row, paired with each matching right row, or
with null when no right row matches. -/
def leftOuterJoin {α β : Type} (L : List α) (R : List β) (p : α → β → Bool) :
    List (α × Option β) :=
  L.flatMap fun a =>
    let ms := R.filter (p a)
    if ms.isEmpty then [(a, none)] else ms.map fun b => (a, some b)

/-- Right outer join: every right row, paired with each matching left row, or
with null when no left row matches. -/
def rightOuterJoin {α β : Type} (L : List α) (R : List β) (p : α → β → Bool) :
    List (Option α × β) :=
  R.flatMap fun b =>
    let ms := L.filter fun a => p a b
    if ms.isEmpty then [(none, b)] else ms.map fun a => (some a, b)

/-- Left semi join: the left rows whose key appears in the right dataset. -/
def leftSemiJoin {α β : Type} (L : List α) (R : List β) (p : α → β → Bool) :
    List α :=
  L.filter fun a => R.any (p a)

/-- Left anti join: the left rows whose key does not appear in the right
dataset. -/
def leftAntiJoin {α β : Type} (L : List α) (R : List β) (p : α → β → Bool) :
    List α :=
  L.filter fun a => !R.any (p a)

/-- Cross join: every row of the left dataset paired with every row of the
right dataset. -/
def crossJoin {α β : Type} (L : List α) (R : List β) : List (α × β) :=
  L.flatMap fun a => R.map fun b => (a, b)

/-! The join outputs transcribed in the notebook, read back from the printed
tables into structured rows (show() truncates long cell values for display,
e.g. School of Informa..., so the rows are stated with the full field values
the createDataFrame cell gave them). -/

def innerTranscript : List (Person × GradProgram) :=
  [(bill, masters0), (matei, phd1), (michael, phd1)]

def fullOuterTranscript : List (Option Person × Option GradProgram) :=
  [(some bill, some masters0), (some matei, some phd1),
   (some michael, some phd1), (none, some masters2)]

def leftOuterTranscript : List (GradProgram × Option Person) :=
  [(masters0, some bill), (phd1, some matei), (phd1, some michael),
   (masters2, none)]

def rightOuterTranscript : List (Option Person × GradProgram) :=
  [(some bill, masters0), (some matei, phd1), (some michael, phd1),
   (none, masters2)]

def leftSemiTranscript : List GradProgram := [masters0, phd1]

def leftAntiTranscript : List GradProgram := [masters2]

def crossTranscript : List (Person × GradProgram) :=
  [(bill, masters0), (bill, masters2), (bill, phd1),
   (matei, masters0), (michael, masters0), (matei, masters2),
   (matei, phd1), (michael, masters2), (michael, phd1)]

/-! Predicates over the embedded cells, used by the claims. -/

/-- The cell printed something: its recorded outputs are non-empty. -/
def printsResult (c : CodeCell) : Bool := !c.outputs.isEmpty

/-- The cell calls into the external engine: its source references the spark
session, the catalog handle Cat bound to spark.catalog, or a DataFrame such
as person/graduateProgram/df produced by an engine call (every DataFrame
variable of the notebooks is introduced in a line that also mentions another
engine object, so these three roots cover all cells). -/
def invokesEngine (c : CodeCell) : Bool :=
  srcHas "spark" c || srcHas "person" c || srcHas "Cat." c

/-- Number of chained DataFrame transformations beyond the initial call:
occurrences of .where( and .count() applied to the result of a previous
library call (display-only .show()/.explain() terminators are not counted,
since printing the result is what the claim's option (a) expects). -/
def transformationChain (c : CodeCell) : Nat :=
  countInSrc ".where(" c + countInSrc ".count()" c

/-- The cell chains more than one working library method. -/
def chainsLibraryCalls (c : CodeCell) : Bool := 2 ≤ transformationChain c

/-- The cell pastes a cloud-provider shell command. -/
def isShellCell (c : CodeCell) : Bool := srcHas "gcloud" c

/-- Option (a) of the cell dichotomy claim: a single library call whose
result is printed. -/
def singleCallPrintingCell (c : CodeCell) : Bool :=
  invokesEngine c && !chainsLibraryCalls c && printsResult c

/-- An output line of the cell carries an engine error. -/
def hasErrorOutput (c : CodeCell) : Bool := outHas "Exception" c || outHas "Error" c

/-- The cell source handles errors: a Python try block, an except clause or a
raise statement. -/
def handlesErrors (c : CodeCell) : Bool :=
  srcHas "try:" c || srcHas "except" c || srcHas "raise " c

/-- The cell reaches into a non-public engine internal: it accesses an
attribute whose name starts with an underscore (the Python convention for
non-public members, e.g. spark._jsc). -/
def usesPrivateInternal (c : CodeCell) : Bool := srcHas "._" c

/-- The cell addresses cloud storage directly through a gs:// URI. -/
def usesCloudStoragePath (c : CodeCell) : Bool := srcHas "gs://" c

/-- Boundary surface (a) of the external-interface claim: only the engine's
public API, no underscore internals, no gs:// paths, no shell command. -/
def publicEngineApiOnly (c : CodeCell) : Bool :=
  !usesPrivateInternal c && !usesCloudStoragePath c && !isShellCell c

/-- The cell defines original code: a Python function or class definition, a
lambda, or a user-defined-function registration. -/
def definesOriginalCode (c : CodeCell) : Bool :=
  srcHas "def " c || srcHas "class " c || srcHas "lambda" c || srcHas "udf" c ||
    srcHas "UDF" c || srcHas "register" c

/-- The left join input of a transcribed physical plan: Spark prints the
first child's subtree with a leading colon, after the two header lines
(== Physical Plan == and the join node itself). -/
def planLeftInput (plan : List String) : List String :=
  (plan.drop 2).filter fun l => startsWithStr ":" l

/-- The right join input of a transcribed physical plan: the remaining lines
of the tree, printed without the leading colon. -/
def planRightInput (plan : List String) : List String :=
  (plan.drop 2).filter fun l => !startsWithStr ":" l

/-! The claims. -/

/-- C1, as the spec states it, is false on the notebooks.  The data-loading
cell (execution_count 2 of the Spark-SQL notebook) calls several library
methods and prints nothing (its recorded outputs are empty), and cell 3 of
the same notebook chains three working library calls
(spark.sql followed by .where twice and .count); neither is a pasted shell
command.  The map conjuncts pin the concrete failing cells down. -/
theorem claim1_counterexample :
    (allCodeCells.all fun c => singleCallPrintingCell c || isShellCell c) = false ∧
    ((sparkSqlCodeCells.filter fun c => c.executionCount == 2).map fun c =>
      (invokesEngine c, c.outputs, isShellCell c)) = [(true, [], false)] ∧
    ((sparkSqlCodeCells.filter fun c => c.executionCount == 3).map
      transformationChain) = [3] := by decide

/-- C1 amended: every code cell of the two notebooks invokes the external
engine's API (one or more methods; four cells print nothing, namely
execution counts 2 and 7 of the Spark-SQL notebook and 2 and 3 of the joins
notebook) and no code cell pastes a shell command; every cheat-sheet entry
is a gcloud cluster-lifecycle command except the Jupyter entry, which is the
localhost address of the notebook server. -/
theorem claim1_amended :
    (allCodeCells.all fun c => invokesEngine c && !isShellCell c) = true ∧
    ((allCodeCells.filter fun c => !printsResult c).map fun c =>
      c.executionCount) = [2, 7, 2, 3] ∧
    (cheatSheet.all fun e => entryIsGcloud e || entryIsAddress e) = true := by decide

/-- C2: exactly one code cell of the two notebooks shows an error in its
output, namely execution_count 16 of the Spark-SQL notebook; that output is
an AnalysisException naming just_usa_view, raised by the EXPLAIN query; the
view is created only later (no cell up to and including the EXPLAIN cell
contains CREATE VIEW, and the CREATE VIEW just_usa_view cell is
execution_count 17); and no code cell anywhere catches, tests for or raises
an error. -/
theorem claim2_single_incidental_error :
    ((sparkSqlCodeCells.filter hasErrorOutput).map fun c =>
      c.executionCount) = [16] ∧
    joinsCodeCells.filter hasErrorOutput = [] ∧
    ((sparkSqlCodeCells.filter hasErrorOutput).all fun c =>
      outHas "AnalysisException" c && outHas "just_usa_view" c &&
        srcHas "EXPLAIN SELECT * FROM just_usa_view" c) = true ∧
    ((sparkSqlCodeCells.take 16).all fun c => !srcHas "CREATE VIEW" c) = true ∧
    ((sparkSqlCodeCells.filter fun c =>
      srcHas "CREATE VIEW just_usa_view" c).map fun c =>
        c.executionCount) = [17] ∧
    (allCodeCells.all fun c => !handlesErrors c) = true := by decide

/-- C3, as the spec states it, is false on the notebooks: the data-loading
cell (execution_count 2 of the Spark-SQL notebook) reads the staging-bucket
name through the non-public spark._jsc.hadoopConfiguration() internal and
loads JSON directly from a gs:// cloud-storage path, so not every external
interaction goes through the engine's public API or the gcloud cheat
sheet. -/
theorem claim3_counterexample :
    (allCodeCells.all publicEngineApiOnly) = false ∧
    ((sparkSqlCodeCells.filter fun c => !publicEngineApiOnly c).map fun c =>
      (c.executionCount, usesPrivateInternal c, usesCloudStoragePath c,
        srcHas "._jsc.hadoopConfiguration()" c)) = [(2, true, true, true)] ∧
    joinsCodeCells.filter (fun c => !publicEngineApiOnly c) = [] := by decide

/-- C3 amended: every code cell except one stays on the engine's public
query/catalog API with no shell command; the single exception is
execution_count 2 of the Spark-SQL notebook, which uses the non-public
spark._jsc internal and a direct gs:// cloud-storage path; and the
cheat-sheet entries are exactly the fixed gcloud command sequence (cluster
create ×2, SSH tunnel, cluster delete) plus the localhost address. -/
theorem claim3_amended :
    ((sparkSqlCodeCells.filter fun c => !publicEngineApiOnly c).map fun c =>
      c.executionCount) = [2] ∧
    (joinsCodeCells.all publicEngineApiOnly) = true ∧
    (cheatSheet.all fun e => entryIsGcloud e || entryIsAddress e) = true ∧
    ((cheatSheet.filter entryIsGcloud).map fun e => e.title) =
      ["CREATE SINGLE-NODE CLUSTER", "CREATE SINGLE-NODE CLUSTER ONE-LINER",
       "SSH Tunnel", "TERMINATE CLUSTER"] := by decide

/-- C4: each transcribed join output of the joins notebook equals the
mathematical definition of its join type on the key equality
person.graduate_program = graduateProgram.id.  The inner, full outer, left
semi and left anti transcripts coincide with the mathematical joins row for
row (list equality, stronger than the claimed set equality); the cross join
transcript lists the same nine pairs in a different row order, so it is
related by permutation (multiset equality).  The final conjuncts restate the
claimed cardinalities and key sets: 3 inner rows, 3 + 1 null-padded outer
rows, semi join keeps programs 0 and 1, anti join keeps program 2, cross
join has 9 pairs. -/
theorem claim4_join_transcripts_match_math :
    innerJoin person graduateProgram keyEq = innerTranscript ∧
    fullOuterJoin person graduateProgram keyEq = fullOuterTranscript ∧
    leftSemiJoin graduateProgram person (fun g p => keyEq p g) = leftSemiTranscript ∧
    leftAntiJoin graduateProgram person (fun g p => keyEq p g) = leftAntiTranscript ∧
    List.Perm (crossJoin person graduateProgram) crossTranscript ∧
    innerTranscript.length = 3 ∧
    fullOuterTranscript = (innerTranscript.map fun ab => (some ab.1, some ab.2))
      ++ [(none, some masters2)] ∧
    (leftSemiTranscript.map fun g => g.id) = [0, 1] ∧
    (leftAntiTranscript.map fun g => g.id) = [2] ∧
    crossTranscript.length = 9 := by decide

/-- C5: no code cell of either notebook defines a Python function, class,
lambda or user-defined function registration, and every code cell invokes
the external engine's API (directly through spark/Cat or on DataFrames the
engine produced). -/
theorem claim5_no_original_definitions :
    (allCodeCells.all fun c => !definesOriginalCode c && invokesEngine c) = true := by
  decide

/-- C6: the recorded execution_count values of the code cells, in document
order, are exactly 1..20 in the Spark-SQL notebook and 1..17 in the joins
notebook, with no gaps, repeats or reordering. -/
theorem claim6_sequential_execution_counts :
    (sparkSqlCodeCells.map fun c => c.executionCount) = (List.range 20).map (· + 1) ∧
    (joinsCodeCells.map fun c => c.executionCount) = (List.range 17).map (· + 1) := by
  decide

/-- C7: the transcribed sort-merge plan sorts and hash-partition-exchanges
both join inputs (a Sort node and an Exchange hashpartitioning node appear
in the left subtree and in the right subtree), matching the glossary's
sort-merge definition, while the broadcast plan replicates its right input
through a BroadcastExchange and contains no hash-partitioning Exchange
anywhere, matching the glossary's broadcast definition; the two plans are
the recorded outputs of the notebook's two explain() cells. -/
theorem claim7_plans_match_glossary :
    hasSubstr "SortMergeJoin" (sortMergePlan.getD 1 "") = true ∧
    ((planLeftInput sortMergePlan).any (hasSubstr " Sort [")) = true ∧
    ((planLeftInput sortMergePlan).any (hasSubstr "Exchange hashpartitioning")) = true ∧
    ((planRightInput sortMergePlan).any (hasSubstr " Sort [")) = true ∧
    ((planRightInput sortMergePlan).any (hasSubstr "Exchange hashpartitioning")) = true ∧
    hasSubstr "BroadcastHashJoin" (broadcastPlan.getD 1 "") = true ∧
    ((planRightInput broadcastPlan).any (hasSubstr "BroadcastExchange")) = true ∧
    (broadcastPlan.all fun l => !hasSubstr "Exchange hashpartitioning" l) = true ∧
    (joinsCodeCells.getD 15 ⟨0, [], []⟩).outputs = sortMergePlan ∧
    (joinsCodeCells.getD 16 ⟨0, [], []⟩).outputs = broadcastPlan := by decide

/-- C8: the transcribed right outer join of person with graduateProgram and
the transcribed left outer join of graduateProgram with person hold the same
joined rows, each row of one being the column swap of the corresponding row
of the other (swapping one transcript yields the other exactly, in both
directions), and both transcripts agree with the mathematical right/left
outer joins up to row order. -/
theorem claim8_right_outer_swap_left_outer :
    rightOuterTranscript.map Prod.swap = leftOuterTranscript ∧
    leftOuterTranscript.map Prod.swap = rightOuterTranscript ∧
    List.Perm (rightOuterJoin person graduateProgram keyEq) rightOuterTranscript ∧
    List.Perm (leftOuterJoin graduateProgram person (fun g p => keyEq p g))
      leftOuterTranscript := by decide

/-- C9, as stated, is false: the multi-line CREATE SINGLE-NODE CLUSTER
command and its ONE-LINER variant do not carry the same flag/value pairs. -/
theorem claim9_counterexample : multiLineFlagPairs ≠ oneLinerFlagPairs := by decide

/-- C9 amended: the two cluster-creation commands have the same command head
and the same flags in the same order with the same values, except
image-version, which the multi-line command sets to 1.3 and the one-liner
to 1.4. -/
theorem claim9_amended :
    commandHead (lineTokens createClusterMultiLine) =
      commandHead (spaceTokens createClusterOneLiner) ∧
    (multiLineFlagPairs.map Prod.fst) = (oneLinerFlagPairs.map Prod.fst) ∧
    (multiLineFlagPairs.filter fun p => p.1 != "image-version".data) =
      (oneLinerFlagPairs.filter fun p => p.1 != "image-version".data) ∧
    multiLineFlagPairs.contains ("image-version".data, "1.3".data) = true ∧
    oneLinerFlagPairs.contains ("image-version".data, "1.4".data) = true := by decide

/-- Length of a cross join: every left row meets every right row. -/
theorem crossJoin_length {α β : Type} (L : List α) (R : List β) :
    (crossJoin L R).length = L.length * R.length := by
  induction L with
  | nil => simp [crossJoin]
  | cons a t ih =>
      simp only [crossJoin, List.flatMap_cons, List.length_append,
        List.length_map] at *
      rw [ih]
      simp [Nat.succ_mul, Nat.add_comm]

/-- C10: for every pair of datasets the cross join has exactly as many rows
as the product of the input sizes; in particular the person and
graduateProgram datasets give 3 times 3 rows, the transcribed cross join
lists exactly 9 rows, and two 1,000-row inputs give 1,000,000 rows. -/
theorem claim10_cross_join_cardinality :
    (∀ {α β : Type} (A : List α) (B : List β),
      (crossJoin A B).length = A.length * B.length) ∧
    (crossJoin person graduateProgram).length =
      person.length * graduateProgram.length ∧
    crossTranscript.length = 9 ∧
    (∀ {α β : Type} (A : List α) (B : List β),
      A.length = 1000 → B.length = 1000 → (crossJoin A B).length = 1000000) := by
  refine ⟨?_, by decide, by decide, ?_⟩
  · intro α β A B
    exact crossJoin_length A B
  · intro α β A B hA hB
    rw [crossJoin_length, hA, hB]

/-- C10 witness: the cardinality law applied to two concrete 1,000-row
datasets yields 1,000,000 rows. -/
theorem claim10_witness :
    (crossJoin (List.replicate 1000 true) (List.replicate 1000 false)).length
      = 1000000 :=
  claim10_cross_join_cardinality.2.2.2 (List.replicate 1000 true)
    (List.replicate 1000 false) (List.length_replicate 1000 true)
    (List.length_replicate 1000 false)

end BigDataNotebooks
